/-
Verification of the OAuth 2.0 Authorization Code + PKCE client examples
(Flask and Django variants) of the truxeio/truxe repository.

The Python sources are embedded shallowly:
  * Session dictionaries become a `SessionData` structure of `Option` fields
    (`none` models an absent key).
  * Python truthiness (`if x:`) is modelled explicitly: `None` and the empty
    string are falsy for strings, `None` and `0` are falsy for numbers.
  * Unix timestamps are modelled at integer granularity (`Int`); the claims
    only involve integer second arithmetic, where float and integer
    comparison agree.
  * HTTP calls are modelled by passing the provider's response (or a network
    failure marker) as an explicit argument; handlers additionally return the
    number of refresh / token-exchange HTTP calls they performed.
  * `raise` / `try` / `except` become explicit control flow on the embedded
    result types.
  * Bytes are modelled as `Nat` values; where the Python operation is only
    defined on values below 256 the embedding truncates with an explicit
    `% 64` table lookup (base64 index extraction) or `% 2^32` (SHA-256 words).
-/
import Mathlib

set_option maxHeartbeats 1000000

/-! ## Python truthiness helpers -/

/-- Truthiness of an optional Python string: `None` and `''` are falsy. -/
def pyTruthyStr : Option String → Bool
  | none => false
  | some s => s ≠ ""

/-- Truthiness of an optional Python number: `None` and `0` are falsy
(`expires_at` is a float timestamp; `0.0` is falsy). -/
def pyTruthyInt : Option Int → Bool
  | none => false
  | some n => n ≠ 0

/-- Python `a or b or default` over two optional strings and a non-empty
string literal default, as used in the error translation code. -/
def pyFirstTruthy (a b : Option String) (d : String) : String :=
  if pyTruthyStr a then a.getD "" else if pyTruthyStr b then b.getD "" else d

/-! ## Session data model

One record covering every session key the Flask app (`app.py`) and the Django
app (`views.py` / `decorators.py` / `middleware.py`) read or write.  `none`
models an absent key.  Django's `oauth_code_verifier` key and Flask's
`code_verifier` key are both modelled by the `code_verifier` field (the two
applications never share a session). -/

/-- Provider user-info claims, treated as an opaque mapping. -/
abbrev UserProfile := List (String × String)

structure SessionData where
  access_token : Option String := none
  refresh_token : Option String := none
  expires_at : Option Int := none
  token_type : Option String := none
  scope : Option String := none
  user : Option UserProfile := none
  oauth_state : Option String := none
  code_verifier : Option String := none
  oauth_nonce : Option String := none
  return_to : Option String := none
  deriving DecidableEq, Repr

/-- `session.clear()` / `request.session.flush()`: every key removed. -/
def emptySession : SessionData := {}

/-! ## HTTP response model and error translation (oauth_client.py)

`HttpResponse` models a `requests.Response`: its `ok` flag, status code, and
the result of `response.json()` restricted to the `error` /
`error_description` fields (`errorBody = none` models an unparseable body,
on which `response.json()` raises). -/

structure ErrorBody where
  error : Option String := none
  error_description : Option String := none
  deriving DecidableEq, Repr

structure HttpResponse where
  ok : Bool
  status : Nat
  errorBody : Option ErrorBody := none
  deriving DecidableEq, Repr

/-- Failures the Python client methods can raise. -/
inductive PyFailure where
  /-- `raise Exception(msg)` -/
  | raised (msg : String)
  /-- `response.json()` raised on an unparseable body -/
  | jsonDecodeError
  /-- `response.raise_for_status()` raised `HTTPError` carrying the status -/
  | httpStatusError (status : Nat)
  deriving DecidableEq, Repr

/-- Failure translation of `HeimdallOAuthClient.exchange_code_for_token`
(flask/oauth_client.py lines 119-127): on a non-ok response the body is
parsed (raising on an unparseable body) and
`error_description or error or 'Token exchange failed'` is raised.
Returns `none` on a 2xx response (no failure). -/
def exchangeCodeFailure (resp : HttpResponse) : Option PyFailure :=
  if resp.ok then none
  else match resp.errorBody with
    | none => some .jsonDecodeError
    | some b =>
        some (.raised (pyFirstTruthy b.error_description b.error "Token exchange failed"))

/-- Failure translation of `HeimdallOAuthClient.refresh_access_token`
(flask/oauth_client.py lines 154-160): same shape as the code exchange with
default message `'Token refresh failed'`. -/
def refreshAccessTokenFailure (resp : HttpResponse) : Option PyFailure :=
  if resp.ok then none
  else match resp.errorBody with
    | none => some .jsonDecodeError
    | some b =>
        some (.raised (pyFirstTruthy b.error_description b.error "Token refresh failed"))

/-- Failure translation of `HeimdallOAuthClient.get_user_info`
(flask/oauth_client.py lines 181-182): a non-ok response raises the fixed
message `'Failed to fetch user info'`; the body is never parsed. -/
def getUserInfoFailure (resp : HttpResponse) : Option PyFailure :=
  if resp.ok then none else some (.raised "Failed to fetch user info")

/-- Failure translation of `HeimdallOAuthClient.introspect_token`
(flask/oauth_client.py lines 216-217): a non-ok response raises the fixed
message `'Token introspection failed'`; the body is never parsed. -/
def introspectTokenFailure (resp : HttpResponse) : Option PyFailure :=
  if resp.ok then none else some (.raised "Token introspection failed")

/-- Failure translation of the Django `OAuthClient.get_tokens` /
`refresh_access_token` (django/heimdall_oauth/oauth_client.py):
`response.raise_for_status()` raises `HTTPError` carrying the HTTP status on
any non-ok response; no error body parsing. -/
def djangoRaiseForStatus (resp : HttpResponse) : Option PyFailure :=
  if resp.ok then none else some (.httpStatusError resp.status)

/-! ## Revocation and logout (C8) -/

/-- Outcome of the `requests.post` inside `revoke_token`: either a response
arrived or the request itself raised (network error). -/
inductive RevokeOutcome where
  | response (resp : HttpResponse)
  | networkError
  deriving DecidableEq, Repr

/-- `HeimdallOAuthClient.revoke_token` (flask/oauth_client.py lines 245-254):
the POST is wrapped in `try/except`; a network error is caught and `False` is
returned, otherwise `response.ok` is returned.  The function is total: no
failure propagates to the caller. -/
def revoke_token : RevokeOutcome → Bool
  | .response resp => resp.ok
  | .networkError => false

/-- Result of the Flask `auth_logout` route: the new session and the
redirect target. -/
structure LogoutResult where
  session : SessionData
  redirect : String
  revokeCalls : Nat
  deriving DecidableEq, Repr

/-- Flask route `auth_logout` (app.py lines 252-268): if an access token is
present, `revoke_token` is called (best effort, its result and any failure
ignored); the session is cleared unconditionally and the user is redirected
to `/`. -/
def auth_logout (s : SessionData) (out : RevokeOutcome) : LogoutResult :=
  if pyTruthyStr s.access_token then
    let _ := revoke_token out
    { session := emptySession, redirect := "/", revokeCalls := 1 }
  else
    { session := emptySession, redirect := "/", revokeCalls := 0 }

/-! ## Substring search (used to state what an error message carries) -/

def charsStartWith : List Char → List Char → Bool
  | [], _ => true
  | _ :: _, [] => false
  | a :: as, b :: bs => a == b && charsStartWith as bs

/-- `hasSub n h` decides whether `n` occurs as a contiguous run inside `h`. -/
def hasSub (n : List Char) : List Char → Bool
  | [] => n.isEmpty
  | c :: cs => charsStartWith n (c :: cs) || hasSub n cs

/-! ## Base64url encoding (`base64.urlsafe_b64encode` and `.rstrip('=')`)

`secrets.token_urlsafe(n)` is `urlsafe_b64encode(os.urandom(n)).rstrip(b'=')`;
both clients also build the PKCE challenge as
`urlsafe_b64encode(sha256(...).digest()).rstrip('=')`. -/

def b64urlAlphabet : List Char :=
  "ABCDEFGHIJKLMNOPQRSTUVWXYZabcdefghijklmnopqrstuvwxyz0123456789-_".toList

/-- Character of the URL-safe base64 alphabet at a 6-bit index (indices are
produced from byte values; the `% 64` makes the 6-bit truncation explicit). -/
def b64c (i : Nat) : Char := b64urlAlphabet.getD (i % 64) 'A'

/-- `base64.urlsafe_b64encode`: 3-byte groups become 4 alphabet characters;
a trailing group of 1 or 2 bytes is padded with `'='`. -/
def base64urlPadded : List Nat → List Char
  | [] => []
  | [b1] => [b64c (b1 / 4), b64c (b1 % 4 * 16), '=', '=']
  | [b1, b2] => [b64c (b1 / 4), b64c (b1 % 4 * 16 + b2 / 16), b64c (b2 % 16 * 4), '=']
  | b1 :: b2 :: b3 :: rest =>
      b64c (b1 / 4) :: b64c (b1 % 4 * 16 + b2 / 16) :: b64c (b2 % 16 * 4 + b3 / 64) ::
        b64c (b3 % 64) :: base64urlPadded rest

/-- Python `.rstrip('=')`: remove every trailing `'='`. -/
def rstripEq (cs : List Char) : List Char :=
  (cs.reverse.dropWhile (· == '=')).reverse

/-- Base64url without padding, written directly from the spec's
`base64url_no_pad` wording (for comparison with the code's
encode-then-rstrip construction). -/
def base64urlNoPad : List Nat → List Char
  | [] => []
  | [b1] => [b64c (b1 / 4), b64c (b1 % 4 * 16)]
  | [b1, b2] => [b64c (b1 / 4), b64c (b1 % 4 * 16 + b2 / 16), b64c (b2 % 16 * 4)]
  | b1 :: b2 :: b3 :: rest =>
      b64c (b1 / 4) :: b64c (b1 % 4 * 16 + b2 / 16) :: b64c (b2 % 16 * 4 + b3 / 64) ::
        b64c (b3 % 64) :: base64urlNoPad rest

/-! ## SHA-256 (`hashlib.sha256`), big-endian over byte lists -/

def w32 (x : Nat) : Nat := x % 4294967296

def rotr (n x : Nat) : Nat := w32 (x / 2 ^ n + x % 2 ^ n * 2 ^ (32 - n))

def shr (n x : Nat) : Nat := x / 2 ^ n

/-- Bitwise complement of a 32-bit word. -/
def bnot32 (x : Nat) : Nat := 4294967295 - x % 4294967296

def bigSigma0 (x : Nat) : Nat := rotr 2 x ^^^ rotr 13 x ^^^ rotr 22 x

def bigSigma1 (x : Nat) : Nat := rotr 6 x ^^^ rotr 11 x ^^^ rotr 25 x

def smallSigma0 (x : Nat) : Nat := rotr 7 x ^^^ rotr 18 x ^^^ shr 3 x

def smallSigma1 (x : Nat) : Nat := rotr 17 x ^^^ rotr 19 x ^^^ shr 10 x

def chFn (x y z : Nat) : Nat := (x &&& y) ^^^ (bnot32 x &&& z)

def majFn (x y z : Nat) : Nat := (x &&& y) ^^^ (x &&& z) ^^^ (y &&& z)

def sha256K : List Nat :=
  [1116352408, 1899447441, 3049323471, 3921009573, 961987163, 1508970993,
   2453635748, 2870763221, 3624381080, 310598401, 607225278, 1426881987,
   1925078388, 2162078206, 2614888103, 3248222580, 3835390401, 4022224774,
   264347078, 604807628, 770255983, 1249150122, 1555081692, 1996064986,
   2554220882, 2821834349, 2952996808, 3210313671, 3336571891, 3584528711,
   113926993, 338241895, 666307205, 773529912, 1294757372, 1396182291,
   1695183700, 1986661051, 2177026350, 2456956037, 2730485921, 2820302411,
   3259730800, 3345764771, 3516065817, 3600352804, 4094571909, 275423344,
   430227734, 506948616, 659060556, 883997877, 958139571, 1322822218,
   1537002063, 1747873779, 1955562222, 2024104815, 2227730452, 2361852424,
   2428436474, 2756734187, 3204031479, 3329325298]

/-- 64-bit big-endian byte representation (message bit length). -/
def be64 (n : Nat) : List Nat :=
  [n / 2 ^ 56 % 256, n / 2 ^ 48 % 256, n / 2 ^ 40 % 256, n / 2 ^ 32 % 256,
   n / 2 ^ 24 % 256, n / 2 ^ 16 % 256, n / 2 ^ 8 % 256, n % 256]

/-- SHA-256 padding: `0x80`, zeros to 56 mod 64, then the bit length. -/
def sha256Pad (msg : List Nat) : List Nat :=
  msg ++ 0x80 :: List.replicate ((64 - (msg.length + 9) % 64) % 64) 0 ++
    be64 (8 * msg.length)

/-- Split a byte list into 64-byte blocks. -/
def chunk64 (l : List Nat) : List (List Nat) :=
  if h : l = [] then [] else l.take 64 :: chunk64 (l.drop 64)
termination_by l.length
decreasing_by
  cases l with
  | nil => exact absurd rfl h
  | cons a as => simp [List.length_drop]; omega

/-- Big-endian 32-bit words from bytes. -/
def bytesToWords : List Nat → List Nat
  | b1 :: b2 :: b3 :: b4 :: rest =>
      (b1 % 256 * 16777216 + b2 % 256 * 65536 + b3 % 256 * 256 + b4 % 256) ::
        bytesToWords rest
  | _ => []

/-- Extend the 16-word message schedule by `n` further words. -/
def extendSchedule (ws : List Nat) : Nat → List Nat
  | 0 => ws
  | Nat.succ m =>
      let t := ws.length
      extendSchedule
        (ws ++ [w32 (smallSigma1 (ws.getD (t - 2) 0) + ws.getD (t - 7) 0 +
          smallSigma0 (ws.getD (t - 15) 0) + ws.getD (t - 16) 0)]) m

structure Sha256State where
  a : Nat
  b : Nat
  c : Nat
  d : Nat
  e : Nat
  f : Nat
  g : Nat
  hh : Nat
  deriving DecidableEq, Repr

def sha256Round (st : Sha256State) (k w : Nat) : Sha256State :=
  let t1 := w32 (st.hh + bigSigma1 st.e + chFn st.e st.f st.g + k + w)
  let t2 := w32 (bigSigma0 st.a + majFn st.a st.b st.c)
  ⟨w32 (t1 + t2), st.a, st.b, st.c, w32 (st.d + t1), st.e, st.f, st.g⟩

def sha256Block (h : Sha256State) (block : List Nat) : Sha256State :=
  let ws := extendSchedule (bytesToWords block) 48
  let st := (List.zip sha256K ws).foldl (fun st kw => sha256Round st kw.1 kw.2) h
  ⟨w32 (h.a + st.a), w32 (h.b + st.b), w32 (h.c + st.c), w32 (h.d + st.d),
   w32 (h.e + st.e), w32 (h.f + st.f), w32 (h.g + st.g), w32 (h.hh + st.hh)⟩

def sha256Init : Sha256State :=
  ⟨1779033703, 3144134277, 1013904242, 2773480762,
   1359893119, 2600822924, 528734635, 1541459225⟩

/-- 32-bit word to big-endian bytes. -/
def wordBE (n : Nat) : List Nat :=
  [n / 16777216 % 256, n / 65536 % 256, n / 256 % 256, n % 256]

/-- SHA-256 digest (32 bytes) of a byte list. -/
def sha256 (msg : List Nat) : List Nat :=
  let h := (chunk64 (sha256Pad msg)).foldl sha256Block sha256Init
  wordBE h.a ++ wordBE h.b ++ wordBE h.c ++ wordBE h.d ++
    wordBE h.e ++ wordBE h.f ++ wordBE h.g ++ wordBE h.hh

/-- UTF-8 bytes of a string (`str.encode('utf-8')`). -/
def utf8Bytes (s : String) : List Nat := s.toUTF8.toList.map (fun b => b.toNat)

/-! ## PKCE generation (oauth_client.py, both variants)

Randomness is passed in explicitly as the byte list `os.urandom` produced;
the call sites fix its length (32 bytes in Flask, 64 bytes in Django). -/

/-- `secrets.token_urlsafe` applied to the given random bytes:
`base64.urlsafe_b64encode(bytes).rstrip(b'=')`. -/
def token_urlsafe (randomBytes : List Nat) : String :=
  (rstripEq (base64urlPadded randomBytes)).asString

/-- Flask `HeimdallOAuthClient._generate_code_verifier`:
`secrets.token_urlsafe(32)`; the 32 random bytes are the argument. -/
def generate_code_verifier (randomBytes : List Nat) : String :=
  token_urlsafe randomBytes

/-- Flask `HeimdallOAuthClient._generate_code_challenge`:
`urlsafe_b64encode(sha256(verifier.encode('utf-8')).digest()).rstrip('=')`. -/
def generate_code_challenge (verifier : String) : String :=
  (rstripEq (base64urlPadded (sha256 (utf8Bytes verifier)))).asString

/-- Django `OAuthClient.generate_pkce`: verifier is
`secrets.token_urlsafe(64)` (the 64 random bytes are the argument), challenge
is `_base64_url_encode(sha256(verifier).digest())` which is
`urlsafe_b64encode(...).rstrip(b'=')`. -/
def django_generate_pkce (randomBytes : List Nat) : String × String :=
  let code_verifier := token_urlsafe randomBytes
  (code_verifier,
   (rstripEq (base64urlPadded (sha256 (utf8Bytes code_verifier)))).asString)

/-- The spec's formula `base64url_no_pad(SHA256(verifier))`, written from the
spec's words for comparison with the code's encode-then-rstrip construction. -/
def specCodeChallenge (verifier : String) : String :=
  (base64urlNoPad (sha256 (utf8Bytes verifier))).asString

/-! ## Protected-resource access: token refresh decorators -/

/-- Body of a token response to a refresh call, as read by the decorators:
`tokens['access_token']`, `tokens.get('refresh_token', ...)`,
`tokens['expires_in']`. -/
structure RefreshResponse where
  access_token : String
  refresh_token : Option String := none
  expires_in : Int
  deriving DecidableEq, Repr

/-- Outcome of the refresh HTTP call: a token response, or any raised
exception (non-2xx translated by the client, or a network error). -/
inductive RefreshOutcome where
  | success (tokens : RefreshResponse)
  | failure
  deriving DecidableEq, Repr

inductive AuthAction where
  | redirectLogin
  | runHandler
  deriving DecidableEq, Repr

structure AuthResult where
  session : SessionData
  action : AuthAction
  refreshCalls : Nat
  deriving DecidableEq, Repr

/-- The expiry check shared verbatim by `require_auth` (Flask),
`require_oauth` and `OAuthTokenRefreshMiddleware` (Django):
`if expires_at and now >= expires_at - 300` — note the Python truthiness on
`expires_at` (a `0` timestamp skips the whole refresh branch). -/
def needsRefresh (expires_at : Option Int) (now : Int) : Bool :=
  pyTruthyInt expires_at && decide (now ≥ expires_at.getD 0 - 300)

/-- Flask decorator `require_auth` (app.py lines 47-85) around one protected
request: reads the session, refreshes when the token is within 300 seconds of
expiry and a refresh token is present, and either runs the wrapped handler or
redirects to `/auth/login`.  `refreshCalls` counts refresh HTTP calls. -/
def require_auth (s : SessionData) (now : Int) (requestUrl : String)
    (refreshOutcome : RefreshOutcome) : AuthResult :=
  if ¬ pyTruthyStr s.access_token then
    { session := { s with return_to := some requestUrl },
      action := .redirectLogin, refreshCalls := 0 }
  else if needsRefresh s.expires_at now then
    if pyTruthyStr s.refresh_token then
      match refreshOutcome with
      | .success tokens =>
          { session := { s with
              access_token := some tokens.access_token,
              refresh_token :=
                some (tokens.refresh_token.getD (s.refresh_token.getD "")),
              expires_at := some (now + tokens.expires_in) },
            action := .runHandler, refreshCalls := 1 }
      | .failure =>
          { session := { emptySession with return_to := some requestUrl },
            action := .redirectLogin, refreshCalls := 1 }
    else
      { session := { emptySession with return_to := some requestUrl },
        action := .redirectLogin, refreshCalls := 0 }
  else
    { session := s, action := .runHandler, refreshCalls := 0 }

/-- Django decorator `require_oauth` (decorators.py lines 15-42).  Differences
from the Flask variant: the saved return path key is `'next'` (modelled by the
same `return_to` field), the refresh token is only overwritten when the
response contains one, refresh failure flushes the session without storing a
return path, and when the token is expiring with no refresh token available
the view still runs (the decorator has no else branch there). -/
def require_oauth (s : SessionData) (now : Int) (requestPath : String)
    (refreshOutcome : RefreshOutcome) : AuthResult :=
  if ¬ pyTruthyStr s.access_token then
    { session := { s with return_to := some requestPath },
      action := .redirectLogin, refreshCalls := 0 }
  else if needsRefresh s.expires_at now then
    if pyTruthyStr s.refresh_token then
      match refreshOutcome with
      | .success tokens =>
          { session := { s with
              access_token := some tokens.access_token,
              expires_at := some (now + tokens.expires_in),
              refresh_token := match tokens.refresh_token with
                | some rt => some rt
                | none => s.refresh_token },
            action := .runHandler, refreshCalls := 1 }
      | .failure =>
          { session := emptySession, action := .redirectLogin, refreshCalls := 1 }
    else
      { session := s, action := .runHandler, refreshCalls := 0 }
  else
    { session := s, action := .runHandler, refreshCalls := 0 }

/-! ## OAuth callback handlers -/

/-- Query parameters of the callback request (Flask reads all four). -/
structure CallbackQuery where
  code : Option String := none
  state : Option String := none
  error : Option String := none
  error_description : Option String := none
  deriving DecidableEq, Repr

/-- Body of a successful token-endpoint response as the callback handlers
read it.  `none` in an `Option` field models an absent JSON key; reading an
absent mandatory key (`tokens['token_type']`, `tokens['scope']`) raises
`KeyError`. -/
structure TokenResponse where
  access_token : String
  refresh_token : Option String := none
  expires_in : Int
  token_type : Option String := none
  scope : Option String := none
  deriving DecidableEq, Repr

inductive ExchangeOutcome where
  | success (tokens : TokenResponse)
  | failure
  deriving DecidableEq, Repr

inductive UserInfoOutcome where
  | success (user : UserProfile)
  | failure
  deriving DecidableEq, Repr

inductive CallbackPage where
  | errorRedirect (message : String)
  | redirectTo (target : String)
  deriving DecidableEq, Repr

structure CallbackResult where
  session : SessionData
  page : CallbackPage
  exchangeCalls : Nat
  deriving DecidableEq, Repr

/-- Flask route `auth_callback` (app.py lines 200-250).  The state is
validated against `session['oauth_state']` and, on a match, state and
verifier are popped before the token exchange; the whole exchange/store/
user-info block is wrapped in `try/except`, so a `KeyError` on
`tokens['token_type']` or `tokens['scope']`, or a user-info failure, leaves
the session writes already performed in place and redirects to the error
page.  `exchangeCalls` counts token-exchange HTTP calls. -/
def auth_callback (q : CallbackQuery) (s : SessionData) (now : Int)
    (exchangeOutcome : ExchangeOutcome) (userInfoOutcome : UserInfoOutcome) :
    CallbackResult :=
  if pyTruthyStr q.error then
    { session := s,
      page := .errorRedirect (if pyTruthyStr q.error_description then
        q.error_description.getD "" else q.error.getD ""),
      exchangeCalls := 0 }
  else if ¬ pyTruthyStr q.code ∨ ¬ pyTruthyStr q.state then
    { session := s, page := .errorRedirect "Missing required parameters",
      exchangeCalls := 0 }
  else if q.state ≠ s.oauth_state then
    { session := s, page := .errorRedirect "Invalid state parameter",
      exchangeCalls := 0 }
  else
    let s1 := { s with oauth_state := none, code_verifier := none }
    match exchangeOutcome with
    | .failure =>
        { session := s1,
          page := .errorRedirect "Authentication failed. Please try again.",
          exchangeCalls := 1 }
    | .success tokens =>
        let s2 := { s1 with
          access_token := some tokens.access_token,
          refresh_token := tokens.refresh_token,
          expires_at := some (now + tokens.expires_in) }
        match tokens.token_type with
        | none =>
            { session := s2,
              page := .errorRedirect "Authentication failed. Please try again.",
              exchangeCalls := 1 }
        | some tt =>
          let s3 := { s2 with token_type := some tt }
          match tokens.scope with
          | none =>
              { session := s3,
                page := .errorRedirect "Authentication failed. Please try again.",
                exchangeCalls := 1 }
          | some sc =>
            let s4 := { s3 with scope := some sc }
            match userInfoOutcome with
            | .failure =>
                { session := s4,
                  page := .errorRedirect "Authentication failed. Please try again.",
                  exchangeCalls := 1 }
            | .success user =>
                let s5 := { s4 with user := some user }
                let target := s5.return_to.getD "/dashboard"
                { session := { s5 with return_to := none },
                  page := .redirectTo target, exchangeCalls := 1 }

inductive DjangoPage where
  | renderLoginError (message : String)
  | redirectTo (target : String)
  deriving DecidableEq, Repr

structure DjangoCallbackResult where
  session : SessionData
  page : DjangoPage
  exchangeCalls : Nat
  deriving DecidableEq, Repr

/-- Django view `callback_view` (views.py lines 25-48).  State and verifier
are read (not removed) before validation; `del request.session[...]` happens
only after a successful exchange and its session writes, inside the
`try/except` (a `del` of an absent key raises `KeyError` into the same
handler).  On an exchange failure the state and verifier therefore remain in
the session. -/
def callback_view (qstate qcode : Option String) (s : SessionData) (now : Int)
    (loginRedirectUrl : String) (exchangeOutcome : ExchangeOutcome) :
    DjangoCallbackResult :=
  if qstate ≠ s.oauth_state ∨ ¬ pyTruthyStr qcode ∨ ¬ pyTruthyStr s.code_verifier then
    { session := s, page := .renderLoginError "Invalid state or code.",
      exchangeCalls := 0 }
  else
    match exchangeOutcome with
    | .failure =>
        { session := s, page := .renderLoginError "Failed to fetch token.",
          exchangeCalls := 1 }
    | .success tokens =>
        let s1 := { s with
          access_token := some tokens.access_token,
          expires_at := some (now + tokens.expires_in),
          refresh_token := match tokens.refresh_token with
            | some rt => some rt
            | none => s.refresh_token }
        match s1.oauth_state with
        | none =>
            { session := s1, page := .renderLoginError "Failed to fetch token.",
              exchangeCalls := 1 }
        | some _ =>
            { session := { s1 with oauth_state := none, code_verifier := none },
              page := .redirectTo loginRedirectUrl, exchangeCalls := 1 }

/-! ## Interleaved concurrent requests (C6)

Neither `require_auth` nor the Django middleware takes any lock around the
expiry check and the refresh call, so two requests handled concurrently for
the same session may both read the session before either writes back.  The
refresh section of one request is modelled as an atomic read (snapshot) step
followed by a refresh-call-and-write step against the shared session. -/

/-- The session fields one request reads before deciding to refresh. -/
structure RefreshSnapshot where
  access_token : Option String
  expires_at : Option Int
  refresh_token : Option String
  deriving DecidableEq, Repr

def readSnapshot (s : SessionData) : RefreshSnapshot :=
  ⟨s.access_token, s.expires_at, s.refresh_token⟩

/-- Shared session plus the count of refresh HTTP calls made so far. -/
structure RaceState where
  sess : SessionData
  refreshCalls : Nat
  deriving DecidableEq, Repr

/-- One request completing the refresh section of `require_auth` against the
shared session, having earlier read `snap`: if the snapshot showed an
authenticated token needing refresh, the refresh HTTP call is made and its
result written back (exactly the session writes of app.py lines 66-71). -/
def refreshStep (snap : RefreshSnapshot) (now : Int) (tokens : RefreshResponse)
    (g : RaceState) : RaceState :=
  if pyTruthyStr snap.access_token && needsRefresh snap.expires_at now &&
      pyTruthyStr snap.refresh_token then
    { sess := { g.sess with
        access_token := some tokens.access_token,
        refresh_token := some (tokens.refresh_token.getD (snap.refresh_token.getD "")),
        expires_at := some (now + tokens.expires_in) },
      refreshCalls := g.refreshCalls + 1 }
  else g

/-- The schedule in which both of two concurrent requests read the session
before either writes: request 1 reads, request 2 reads, request 1 refreshes
and writes, request 2 refreshes and writes. -/
def raceTwoRequests (s0 : SessionData) (now : Int) (t1 t2 : RefreshResponse) :
    RaceState :=
  let snap1 := readSnapshot s0
  let snap2 := readSnapshot s0
  let g1 := refreshStep snap1 now t1 { sess := s0, refreshCalls := 0 }
  refreshStep snap2 now t2 g1

/-- Whether a Flask callback outcome is the error page. -/
def CallbackPage.isErr : CallbackPage → Bool
  | .errorRedirect _ => true
  | .redirectTo _ => false

/-- Encoded length of unpadded base64 for an `n`-byte input. -/
def encLen (n : Nat) : Nat :=
  4 * (n / 3) + (if n % 3 = 0 then 0 else n % 3 + 1)

/-! ## Helper lemmas -/

theorem b64c_ne_pad (i : Nat) : b64c i ≠ '=' := by
  have hlt : i % 64 < 64 := Nat.mod_lt _ (by norm_num)
  have hall : ∀ j, j < 64 → b64urlAlphabet.getD j 'A' ≠ '=' := by decide
  exact hall (i % 64) hlt

theorem b64c_beq_pad_false (i : Nat) : (b64c i == '=') = false := by
  simpa using b64c_ne_pad i

theorem b64c_mem_alphabet (i : Nat) : b64c i ∈ b64urlAlphabet := by
  have hlt : i % 64 < 64 := Nat.mod_lt _ (by norm_num)
  have hall : ∀ j, j < 64 → b64urlAlphabet.getD j 'A' ∈ b64urlAlphabet := by decide
  exact hall (i % 64) hlt

theorem rstripEq_append (xs ys : List Char) :
    rstripEq (xs ++ ys) =
      if rstripEq ys = [] then rstripEq xs else xs ++ rstripEq ys := by
  unfold rstripEq
  rw [List.reverse_append, List.dropWhile_append]
  by_cases h : (ys.reverse.dropWhile (· == '=')) = []
  · simp [h]
  · have h' : (ys.reverse.dropWhile (· == '=')).isEmpty = false := by
      simpa [List.isEmpty_iff] using h
    have h'' : ¬ ((ys.reverse.dropWhile (· == '=')).reverse = []) := by
      simpa using h
    simp [h', h'']

theorem dropWhile_pad_eq_self (cs : List Char) (h : ∀ c ∈ cs, (c == '=') = false) :
    cs.dropWhile (· == '=') = cs := by
  cases cs with
  | nil => rfl
  | cons a as => simp [List.dropWhile_cons, h a (by simp)]

theorem rstripEq_no_pad_chars (cs : List Char) (h : ∀ c ∈ cs, (c == '=') = false) :
    rstripEq cs = cs := by
  unfold rstripEq
  rw [dropWhile_pad_eq_self _ (fun c hc => h c (by simpa using hc)),
    List.reverse_reverse]

theorem base64urlNoPad_eq_nil_iff (bs : List Nat) :
    base64urlNoPad bs = [] ↔ bs = [] := by
  match bs with
  | [] => simp [base64urlNoPad]
  | [b1] => simp [base64urlNoPad]
  | [b1, b2] => simp [base64urlNoPad]
  | b1 :: b2 :: b3 :: rest => simp [base64urlNoPad]

/-- The code's construction (padded base64url, then `rstrip('=')`) coincides
with the spec's `base64url_no_pad`. -/
theorem rstrip_padded_eq_noPad : ∀ bs : List Nat,
    rstripEq (base64urlPadded bs) = base64urlNoPad bs
  | [] => by simp [base64urlPadded, base64urlNoPad, rstripEq]
  | [b1] => by
      show rstripEq [b64c (b1 / 4), b64c (b1 % 4 * 16), '=', '='] = _
      unfold rstripEq
      simp [List.dropWhile, b64c_beq_pad_false, base64urlNoPad]
  | [b1, b2] => by
      show rstripEq [b64c (b1 / 4), b64c (b1 % 4 * 16 + b2 / 16),
        b64c (b2 % 16 * 4), '='] = _
      unfold rstripEq
      simp [List.dropWhile, b64c_beq_pad_false, base64urlNoPad]
  | b1 :: b2 :: b3 :: rest => by
      have ih := rstrip_padded_eq_noPad rest
      show rstripEq ([b64c (b1 / 4), b64c (b1 % 4 * 16 + b2 / 16),
        b64c (b2 % 16 * 4 + b3 / 64), b64c (b3 % 64)] ++ base64urlPadded rest) = _
      rw [rstripEq_append, ih]
      have h4 : rstripEq [b64c (b1 / 4), b64c (b1 % 4 * 16 + b2 / 16),
          b64c (b2 % 16 * 4 + b3 / 64), b64c (b3 % 64)] =
          [b64c (b1 / 4), b64c (b1 % 4 * 16 + b2 / 16),
           b64c (b2 % 16 * 4 + b3 / 64), b64c (b3 % 64)] := by
        apply rstripEq_no_pad_chars
        intro c hc
        simp at hc
        rcases hc with h | h | h | h <;> (subst h; exact b64c_beq_pad_false _)
      by_cases hrest : base64urlNoPad rest = []
      · have hnil : rest = [] := (base64urlNoPad_eq_nil_iff rest).mp hrest
        subst hnil
        rw [if_pos hrest, h4]
        simp [base64urlNoPad]
      · rw [if_neg hrest]
        simp [base64urlNoPad]

theorem base64urlNoPad_length : ∀ bs : List Nat,
    (base64urlNoPad bs).length = encLen bs.length
  | [] => by simp [base64urlNoPad, encLen]
  | [b1] => by simp [base64urlNoPad, encLen]
  | [b1, b2] => by simp [base64urlNoPad, encLen]
  | b1 :: b2 :: b3 :: rest => by
      have ih := base64urlNoPad_length rest
      simp only [base64urlNoPad, List.length_cons, ih, encLen]
      have h3 : (rest.length + 1 + 1 + 1) % 3 = rest.length % 3 := by omega
      rw [h3]
      split_ifs <;> omega

theorem base64urlNoPad_chars : ∀ (bs : List Nat), ∀ c ∈ base64urlNoPad bs,
    c ∈ b64urlAlphabet
  | [], c, hc => by simp [base64urlNoPad] at hc
  | [b1], c, hc => by
      simp [base64urlNoPad] at hc
      rcases hc with h | h <;> (subst h; exact b64c_mem_alphabet _)
  | [b1, b2], c, hc => by
      simp [base64urlNoPad] at hc
      rcases hc with h | h | h <;> (subst h; exact b64c_mem_alphabet _)
  | b1 :: b2 :: b3 :: rest, c, hc => by
      simp only [base64urlNoPad, List.mem_cons] at hc
      rcases hc with h | h | h | h | h
      · subst h; exact b64c_mem_alphabet _
      · subst h; exact b64c_mem_alphabet _
      · subst h; exact b64c_mem_alphabet _
      · subst h; exact b64c_mem_alphabet _
      · exact base64urlNoPad_chars rest c h

theorem asString_length (cs : List Char) : (List.asString cs).length = cs.length := rfl

theorem asString_toList (cs : List Char) : (List.asString cs).toList = cs := rfl

/-- A Flask callback whose `state` differs from the stored one renders the
error page without a token exchange (shared by C1 and C9). -/
theorem flask_mismatch_helper (q : CallbackQuery) (s : SessionData) (now : Int)
    (ex : ExchangeOutcome) (ui : UserInfoOutcome) (h : q.state ≠ s.oauth_state) :
    (auth_callback q s now ex ui).page.isErr = true ∧
      (auth_callback q s now ex ui).exchangeCalls = 0 := by
  unfold auth_callback
  cases he : pyTruthyStr q.error with
  | true => simp [he, CallbackPage.isErr]
  | false =>
    cases hc : pyTruthyStr q.code with
    | false => simp [he, hc, CallbackPage.isErr]
    | true =>
      cases hs : pyTruthyStr q.state with
      | false => simp [he, hc, hs, CallbackPage.isErr]
      | true => simp [he, hc, hs, h, CallbackPage.isErr]

/-! ## Concrete example inputs used by witnesses and counterexamples -/

def exSession : SessionData := { oauth_state := some "good", code_verifier := some "v" }

def exQueryBad : CallbackQuery := { code := some "c", state := some "evil" }

def exQueryGood : CallbackQuery := { code := some "c", state := some "good" }

def exTokens : TokenResponse :=
  { access_token := "AT", refresh_token := some "RT", expires_in := 3600,
    token_type := some "Bearer", scope := some "openid" }

def exUser : UserProfile := [("sub", "u1")]

def exRefresh : RefreshResponse :=
  { access_token := "NEW", refresh_token := none, expires_in := 3600 }

def exAuthSession : SessionData :=
  { access_token := some "AT", refresh_token := some "RT", expires_at := some 1200,
    token_type := some "Bearer", scope := some "openid", user := some [("sub", "u1")] }

def exR32 : List Nat := List.replicate 32 0

def exR64 : List Nat := List.replicate 64 0

/-! ## Claim theorems -/

/-- C1: for every callback request whose `state` query parameter does not
equal the state value stored in the session, the Flask handler redirects to
the error page and the Django handler renders the login error, and in both
cases no token-exchange call is made. -/
theorem C1_csrf_mismatch_blocks_exchange
    (q : CallbackQuery) (s : SessionData) (now : Int)
    (ex : ExchangeOutcome) (ui : UserInfoOutcome)
    (qs qc : Option String) (s2 : SessionData) (now2 : Int) (url2 : String)
    (ex2 : ExchangeOutcome)
    (h1 : q.state ≠ s.oauth_state) (h2 : qs ≠ s2.oauth_state) :
    ((auth_callback q s now ex ui).page.isErr = true ∧
      (auth_callback q s now ex ui).exchangeCalls = 0) ∧
    ((callback_view qs qc s2 now2 url2 ex2).page =
        .renderLoginError "Invalid state or code." ∧
      (callback_view qs qc s2 now2 url2 ex2).exchangeCalls = 0) := by
  refine ⟨flask_mismatch_helper q s now ex ui h1, ?_⟩
  unfold callback_view
  simp [h2]

/-- C1 witness: concrete mismatching callback for both handlers. -/
theorem C1_witness :
    ((exQueryBad.state ≠ exSession.oauth_state) ∧
      ((some "evil" : Option String) ≠ exSession.oauth_state)) ∧
    (((auth_callback exQueryBad exSession 1000 (.success exTokens)
          (.success exUser)).page.isErr = true ∧
      (auth_callback exQueryBad exSession 1000 (.success exTokens)
          (.success exUser)).exchangeCalls = 0) ∧
     ((callback_view (some "evil") (some "c") exSession 1000 "/home"
          (.success exTokens)).page = .renderLoginError "Invalid state or code." ∧
      (callback_view (some "evil") (some "c") exSession 1000 "/home"
          (.success exTokens)).exchangeCalls = 0)) :=
  ⟨⟨by decide, by decide⟩,
    C1_csrf_mismatch_blocks_exchange _ _ _ _ _ _ _ _ _ _ _ (by decide) (by decide)⟩

/-- C2: for every generated PKCE pair (Flask: 32 random bytes, Django: 64
random bytes), the verifier length lies in [43, 128], every verifier
character is from the URL-safe base64 alphabet, and the code challenge
equals `base64url_no_pad(SHA256(verifier))`. -/
theorem C2_pkce_verifier_and_challenge (r32 r64 : List Nat)
    (h32 : r32.length = 32) (h64 : r64.length = 64) :
    (43 ≤ (generate_code_verifier r32).length ∧
      (generate_code_verifier r32).length ≤ 128) ∧
    (∀ c ∈ (generate_code_verifier r32).toList, c ∈ b64urlAlphabet) ∧
    (∀ v : String, generate_code_challenge v = specCodeChallenge v) ∧
    (43 ≤ (django_generate_pkce r64).1.length ∧
      (django_generate_pkce r64).1.length ≤ 128) ∧
    (∀ c ∈ (django_generate_pkce r64).1.toList, c ∈ b64urlAlphabet) ∧
    (django_generate_pkce r64).2 = specCodeChallenge (django_generate_pkce r64).1 := by
  have hv32 : generate_code_verifier r32 = (base64urlNoPad r32).asString := by
    unfold generate_code_verifier token_urlsafe
    rw [rstrip_padded_eq_noPad]
  have hv64 : (django_generate_pkce r64).1 = (base64urlNoPad r64).asString := by
    unfold django_generate_pkce token_urlsafe
    simp [rstrip_padded_eq_noPad]
  refine ⟨?_, ?_, ?_, ?_, ?_, ?_⟩
  · rw [hv32, asString_length, base64urlNoPad_length, h32]
    exact ⟨by decide, by decide⟩
  · rw [hv32, asString_toList]
    exact fun c hc => base64urlNoPad_chars r32 c hc
  · intro v
    unfold generate_code_challenge specCodeChallenge
    rw [rstrip_padded_eq_noPad]
  · rw [hv64, asString_length, base64urlNoPad_length, h64]
    exact ⟨by decide, by decide⟩
  · rw [hv64, asString_toList]
    exact fun c hc => base64urlNoPad_chars r64 c hc
  · unfold django_generate_pkce specCodeChallenge token_urlsafe
    simp [rstrip_padded_eq_noPad]

/-- C2 witness: the PKCE properties at concrete 32- and 64-byte inputs. -/
theorem C2_witness :
    (exR32.length = 32 ∧ exR64.length = 64) ∧
    ((43 ≤ (generate_code_verifier exR32).length ∧
       (generate_code_verifier exR32).length ≤ 128) ∧
     (∀ c ∈ (generate_code_verifier exR32).toList, c ∈ b64urlAlphabet) ∧
     (∀ v : String, generate_code_challenge v = specCodeChallenge v) ∧
     (43 ≤ (django_generate_pkce exR64).1.length ∧
       (django_generate_pkce exR64).1.length ≤ 128) ∧
     (∀ c ∈ (django_generate_pkce exR64).1.toList, c ∈ b64urlAlphabet) ∧
     (django_generate_pkce exR64).2 = specCodeChallenge (django_generate_pkce exR64).1) :=
  ⟨⟨by decide, by decide⟩,
    C2_pkce_verifier_and_challenge exR32 exR64 (by decide) (by decide)⟩

/-- C4: whenever the refresh attempt fails, both decorators clear every token
and profile field of the session (Flask leaves only the freshly written
return-to path; Django flushes outright) and signal re-authentication via a
redirect to the login flow. -/
theorem C4_refresh_failure_clears_session (s : SessionData) (now : Int)
    (url path : String)
    (hA : pyTruthyStr s.access_token = true)
    (hN : needsRefresh s.expires_at now = true)
    (hR : pyTruthyStr s.refresh_token = true) :
    ((require_auth s now url .failure).session.access_token = none ∧
     (require_auth s now url .failure).session.refresh_token = none ∧
     (require_auth s now url .failure).session.expires_at = none ∧
     (require_auth s now url .failure).session.token_type = none ∧
     (require_auth s now url .failure).session.scope = none ∧
     (require_auth s now url .failure).session.user = none ∧
     (require_auth s now url .failure).action = .redirectLogin) ∧
    ((require_oauth s now path .failure).session = emptySession ∧
     (require_oauth s now path .failure).action = .redirectLogin) := by
  unfold require_auth require_oauth
  simp [hA, hN, hR, emptySession]

/-- C4 witness: failing refresh on a fully populated session. -/
theorem C4_witness :
    (pyTruthyStr exAuthSession.access_token = true ∧
     needsRefresh exAuthSession.expires_at 1400 = true ∧
     pyTruthyStr exAuthSession.refresh_token = true) ∧
    (((require_auth exAuthSession 1400 "/d" .failure).session.access_token = none ∧
      (require_auth exAuthSession 1400 "/d" .failure).session.refresh_token = none ∧
      (require_auth exAuthSession 1400 "/d" .failure).session.expires_at = none ∧
      (require_auth exAuthSession 1400 "/d" .failure).session.token_type = none ∧
      (require_auth exAuthSession 1400 "/d" .failure).session.scope = none ∧
      (require_auth exAuthSession 1400 "/d" .failure).session.user = none ∧
      (require_auth exAuthSession 1400 "/d" .failure).action = .redirectLogin) ∧
     ((require_oauth exAuthSession 1400 "/d" .failure).session = emptySession ∧
      (require_oauth exAuthSession 1400 "/d" .failure).action = .redirectLogin)) :=
  ⟨⟨by decide, by decide, by decide⟩,
    C4_refresh_failure_clears_session exAuthSession 1400 "/d" "/d"
      (by decide) (by decide) (by decide)⟩

/-- C5: a successful refresh whose response omits `refresh_token` preserves
the previously stored refresh token while replacing `access_token` and
`expires_at`, in both decorators. -/
theorem C5_missing_refresh_token_preserved (s : SessionData) (now : Int)
    (url path : String) (t : RefreshResponse) (rt : String)
    (hA : pyTruthyStr s.access_token = true)
    (hN : needsRefresh s.expires_at now = true)
    (hR : s.refresh_token = some rt) (hrt : rt ≠ "")
    (hT : t.refresh_token = none) :
    ((require_auth s now url (.success t)).session.refresh_token = some rt ∧
     (require_auth s now url (.success t)).session.access_token = some t.access_token ∧
     (require_auth s now url (.success t)).session.expires_at = some (now + t.expires_in)) ∧
    ((require_oauth s now path (.success t)).session.refresh_token = some rt ∧
     (require_oauth s now path (.success t)).session.access_token = some t.access_token ∧
     (require_oauth s now path (.success t)).session.expires_at = some (now + t.expires_in)) := by
  have hRT : pyTruthyStr (some rt) = true := by
    simpa [pyTruthyStr] using hrt
  unfold require_auth require_oauth
  simp [hA, hN, hRT, hR, hT]

/-- C5 witness: refresh response with no `refresh_token` field. -/
theorem C5_witness :
    (pyTruthyStr exAuthSession.access_token = true ∧
     needsRefresh exAuthSession.expires_at 1400 = true ∧
     exAuthSession.refresh_token = some "RT" ∧ "RT" ≠ "" ∧
     exRefresh.refresh_token = none) ∧
    (((require_auth exAuthSession 1400 "/d" (.success exRefresh)).session.refresh_token = some "RT" ∧
      (require_auth exAuthSession 1400 "/d" (.success exRefresh)).session.access_token = some exRefresh.access_token ∧
      (require_auth exAuthSession 1400 "/d" (.success exRefresh)).session.expires_at = some (1400 + exRefresh.expires_in)) ∧
     ((require_oauth exAuthSession 1400 "/d" (.success exRefresh)).session.refresh_token = some "RT" ∧
      (require_oauth exAuthSession 1400 "/d" (.success exRefresh)).session.access_token = some exRefresh.access_token ∧
      (require_oauth exAuthSession 1400 "/d" (.success exRefresh)).session.expires_at = some (1400 + exRefresh.expires_in))) :=
  ⟨⟨by decide, by decide, by decide, by decide, by decide⟩,
    C5_missing_refresh_token_preserved exAuthSession 1400 "/d" "/d" exRefresh "RT"
      (by decide) (by decide) (by decide) (by decide) (by decide)⟩

/-- C8: revocation is best effort — a non-2xx response or a network error
makes `revoke_token` return `False` rather than raise, and the logout route
clears the whole session and redirects home regardless of the outcome. -/
theorem C8_logout_survives_revoke_failure :
    (∀ (s : SessionData) (out : RevokeOutcome),
      (auth_logout s out).session = emptySession ∧
        (auth_logout s out).redirect = "/") ∧
    (∀ (st : Nat) (b : Option ErrorBody),
      revoke_token (.response ⟨false, st, b⟩) = false) ∧
    revoke_token .networkError = false := by
  refine ⟨fun s out => ?_, fun st b => rfl, rfl⟩
  unfold auth_logout
  split <;> exact ⟨rfl, rfl⟩

/-- C3 counterexample: with `expires_at = 0` stored in an authenticated
session holding a refresh token (Python truthiness: `0` is falsy, so
`if expires_at and ...` skips the whole refresh branch) and `now = 500`,
`now ≥ expires_at - 300` holds yet neither decorator makes a refresh call,
refuting the claimed iff. -/
theorem C3_counterexample :
    (500 : Int) ≥ (0 : Int) - 300 ∧
    (require_auth
        ⟨some "AT", some "RT", some 0, none, none, none, none, none, none, none⟩
        500 "/d" (.success exRefresh)).refreshCalls = 0 ∧
    (require_oauth
        ⟨some "AT", some "RT", some 0, none, none, none, none, none, none, none⟩
        500 "/d" (.success exRefresh)).refreshCalls = 0 :=
  ⟨by decide, by decide, by decide⟩

/-- C3 amended: on a protected access with an authenticated session holding a
refresh token and a nonzero `expires_at = e`, a refresh call is issued iff
`now ≥ e - 300`; in particular for `now ≥ 0`, `expires_at = now + 200` gives
exactly one refresh call and `expires_at = now + 400` gives zero, in both
decorators. -/
theorem C3_refresh_skew_boundary (s : SessionData) (now e : Int)
    (url path : String) (t : RefreshResponse)
    (hA : pyTruthyStr s.access_token = true)
    (hR : pyTruthyStr s.refresh_token = true)
    (hE : s.expires_at = some e) (hz : e ≠ 0) :
    ((require_auth s now url (.success t)).refreshCalls
        = if now ≥ e - 300 then 1 else 0) ∧
    ((require_oauth s now path (.success t)).refreshCalls
        = if now ≥ e - 300 then 1 else 0) ∧
    (0 ≤ now →
      (require_auth { s with expires_at := some (now + 200) } now url
          (.success t)).refreshCalls = 1 ∧
      (require_auth { s with expires_at := some (now + 400) } now url
          (.success t)).refreshCalls = 0 ∧
      (require_oauth { s with expires_at := some (now + 200) } now path
          (.success t)).refreshCalls = 1 ∧
      (require_oauth { s with expires_at := some (now + 400) } now path
          (.success t)).refreshCalls = 0) := by
  have key : ∀ (s' : SessionData) (u : String),
      pyTruthyStr s'.access_token = true → pyTruthyStr s'.refresh_token = true →
      (require_auth s' now u (.success t)).refreshCalls
          = (if needsRefresh s'.expires_at now then 1 else 0) ∧
      (require_oauth s' now u (.success t)).refreshCalls
          = (if needsRefresh s'.expires_at now then 1 else 0) := by
    intro s' u hA' hR'
    unfold require_auth require_oauth
    cases hc : needsRefresh s'.expires_at now <;> simp [hA', hR', hc]
  have hNR : ∀ e' : Int, e' ≠ 0 →
      needsRefresh (some e') now = decide (now ≥ e' - 300) := by
    intro e' hz'
    simp [needsRefresh, pyTruthyInt, hz']
  refine ⟨?_, ?_, ?_⟩
  · rw [(key s url hA hR).1, hE, hNR e hz]
    by_cases hc : now ≥ e - 300 <;> simp [hc]
  · rw [(key s path hA hR).2, hE, hNR e hz]
    by_cases hc : now ≥ e - 300 <;> simp [hc]
  · intro hn
    have h200 : (now + 200 : Int) ≠ 0 := by omega
    have h400 : (now + 400 : Int) ≠ 0 := by omega
    have hc200 : now ≥ now + 200 - 300 := by omega
    have hc400 : ¬ (now ≥ now + 400 - 300) := by omega
    refine ⟨?_, ?_, ?_, ?_⟩
    · rw [(key { s with expires_at := some (now + 200) } url hA hR).1]
      simp [hNR (now + 200) h200, hc200]
    · rw [(key { s with expires_at := some (now + 400) } url hA hR).1]
      simp [hNR (now + 400) h400, hc400]
    · rw [(key { s with expires_at := some (now + 200) } path hA hR).2]
      simp [hNR (now + 200) h200, hc200]
    · rw [(key { s with expires_at := some (now + 400) } path hA hR).2]
      simp [hNR (now + 400) h400, hc400]

/-- C3 witness: concrete session with `expires_at = 1200` accessed at
`now = 1000` (inside the 300-second window). -/
theorem C3_witness :
    (pyTruthyStr exAuthSession.access_token = true ∧
     pyTruthyStr exAuthSession.refresh_token = true ∧
     exAuthSession.expires_at = some 1200 ∧ (1200 : Int) ≠ 0) ∧
    (((require_auth exAuthSession 1000 "/d" (.success exRefresh)).refreshCalls
        = if (1000 : Int) ≥ 1200 - 300 then 1 else 0) ∧
     ((require_oauth exAuthSession 1000 "/d" (.success exRefresh)).refreshCalls
        = if (1000 : Int) ≥ 1200 - 300 then 1 else 0) ∧
     ((0 : Int) ≤ 1000 →
      (require_auth { exAuthSession with expires_at := some (1000 + 200) } 1000 "/d"
          (.success exRefresh)).refreshCalls = 1 ∧
      (require_auth { exAuthSession with expires_at := some (1000 + 400) } 1000 "/d"
          (.success exRefresh)).refreshCalls = 0 ∧
      (require_oauth { exAuthSession with expires_at := some (1000 + 200) } 1000 "/d"
          (.success exRefresh)).refreshCalls = 1 ∧
      (require_oauth { exAuthSession with expires_at := some (1000 + 400) } 1000 "/d"
          (.success exRefresh)).refreshCalls = 0)) :=
  ⟨⟨by decide, by decide, by decide, by decide⟩,
    C3_refresh_skew_boundary exAuthSession 1000 1200 "/d" "/d" exRefresh
      (by decide) (by decide) (by decide) (by decide)⟩

/-- C6 (code bug): neither decorator takes any lock around the expiry check
and the refresh call, so in the interleaving where two concurrent requests on
the same session both read the session before either writes, two refresh HTTP
calls are issued — the first caller stores `newA`, the second then overwrites
with `newB` — whereas a single sequential request issues exactly one. -/
theorem C6_unsynchronized_double_refresh :
    (raceTwoRequests
        ⟨some "old", some "rt", some 100, none, none, none, none, none, none, none⟩
        1000 ⟨"newA", none, 3600⟩ ⟨"newB", none, 3600⟩).refreshCalls = 2 ∧
    (raceTwoRequests
        ⟨some "old", some "rt", some 100, none, none, none, none, none, none, none⟩
        1000 ⟨"newA", none, 3600⟩ ⟨"newB", none, 3600⟩).sess.access_token
      = some "newB" ∧
    (refreshStep
        (readSnapshot
          ⟨some "old", some "rt", some 100, none, none, none, none, none, none, none⟩)
        1000 ⟨"newA", none, 3600⟩
        ⟨⟨some "old", some "rt", some 100, none, none, none, none, none, none, none⟩,
          0⟩).sess.access_token = some "newA" ∧
    (require_auth
        ⟨some "old", some "rt", some 100, none, none, none, none, none, none, none⟩
        1000 "/d" (.success ⟨"newA", none, 3600⟩)).refreshCalls = 1 :=
  ⟨by decide, by decide, by decide, by decide⟩

/-- C7 counterexample: for a 400 response whose body carries both `error` and
`error_description`, the Flask code exchange raises only the description —
the machine code `invalid_grant` is not carried; `get_user_info` ignores the
body entirely; and an unparseable body raises a JSON decode failure rather
than a transport failure carrying the HTTP status. -/
theorem C7_counterexample :
    exchangeCodeFailure ⟨false, 400, some ⟨some "invalid_grant", some "Code expired"⟩⟩
      = some (.raised "Code expired") ∧
    hasSub "invalid_grant".toList "Code expired".toList = false ∧
    getUserInfoFailure ⟨false, 400, some ⟨some "invalid_grant", some "Code expired"⟩⟩
      = some (.raised "Failed to fetch user info") ∧
    hasSub "invalid_grant".toList "Failed to fetch user info".toList = false ∧
    exchangeCodeFailure ⟨false, 502, none⟩ = some .jsonDecodeError :=
  ⟨by decide, by decide, by decide, by decide, by decide⟩

/-- C7 amended: for non-2xx responses, the Flask `exchange_code` and
`refresh` raise a message equal to `error_description` when that is truthy,
else `error` when that is truthy (never both), else — when both fields are
falsy — the fixed defaults `'Token exchange failed'` / `'Token refresh
failed'`, and raise a JSON decode failure on an unparseable body;
`get_user_info` and `introspect` raise fixed generic messages without
parsing the body; the Django client's `raise_for_status` failure carries the
HTTP status; 2xx responses raise nothing. -/
theorem C7_error_translation (st : Nat) (b : Option ErrorBody)
    (eo : Option String) (d e : String) (hd : d ≠ "") (he : e ≠ "") :
    exchangeCodeFailure ⟨false, st, some ⟨eo, some d⟩⟩ = some (.raised d) ∧
    refreshAccessTokenFailure ⟨false, st, some ⟨eo, some d⟩⟩ = some (.raised d) ∧
    (∀ ed : Option String, pyTruthyStr ed = false →
      exchangeCodeFailure ⟨false, st, some ⟨some e, ed⟩⟩ = some (.raised e) ∧
      refreshAccessTokenFailure ⟨false, st, some ⟨some e, ed⟩⟩ = some (.raised e)) ∧
    (∀ eo2 ed : Option String, pyTruthyStr eo2 = false → pyTruthyStr ed = false →
      exchangeCodeFailure ⟨false, st, some ⟨eo2, ed⟩⟩
          = some (.raised "Token exchange failed") ∧
      refreshAccessTokenFailure ⟨false, st, some ⟨eo2, ed⟩⟩
          = some (.raised "Token refresh failed")) ∧
    (exchangeCodeFailure ⟨false, st, none⟩ = some .jsonDecodeError ∧
     refreshAccessTokenFailure ⟨false, st, none⟩ = some .jsonDecodeError) ∧
    getUserInfoFailure ⟨false, st, b⟩ = some (.raised "Failed to fetch user info") ∧
    introspectTokenFailure ⟨false, st, b⟩ = some (.raised "Token introspection failed") ∧
    djangoRaiseForStatus ⟨false, st, b⟩ = some (.httpStatusError st) ∧
    (∀ resp : HttpResponse, resp.ok = true →
      exchangeCodeFailure resp = none ∧ refreshAccessTokenFailure resp = none ∧
      getUserInfoFailure resp = none ∧ introspectTokenFailure resp = none ∧
      djangoRaiseForStatus resp = none) := by
  have hd' : pyTruthyStr (some d) = true := by simp [pyTruthyStr, hd]
  have he' : pyTruthyStr (some e) = true := by simp [pyTruthyStr, he]
  refine ⟨?_, ?_, ?_, ?_, ⟨rfl, rfl⟩, rfl, rfl, rfl, ?_⟩
  · simp [exchangeCodeFailure, pyFirstTruthy, hd']
  · simp [refreshAccessTokenFailure, pyFirstTruthy, hd']
  · intro ed hed
    constructor
    · simp [exchangeCodeFailure, pyFirstTruthy, hed, he']
    · simp [refreshAccessTokenFailure, pyFirstTruthy, hed, he']
  · intro eo2 ed heo hed
    constructor
    · simp [exchangeCodeFailure, pyFirstTruthy, heo, hed]
    · simp [refreshAccessTokenFailure, pyFirstTruthy, heo, hed]
  · intro resp hok
    simp [exchangeCodeFailure, refreshAccessTokenFailure, getUserInfoFailure,
      introspectTokenFailure, djangoRaiseForStatus, hok]

/-- C7 witness: concrete error bodies. -/
theorem C7_witness :
    ("Code expired" ≠ "" ∧ "invalid_grant" ≠ "") ∧
    (exchangeCodeFailure ⟨false, 400, some ⟨some "invalid_grant", some "Code expired"⟩⟩
        = some (.raised "Code expired") ∧
     refreshAccessTokenFailure ⟨false, 400, some ⟨some "invalid_grant", some "Code expired"⟩⟩
        = some (.raised "Code expired") ∧
     (∀ ed : Option String, pyTruthyStr ed = false →
       exchangeCodeFailure ⟨false, 400, some ⟨some "invalid_grant", ed⟩⟩
          = some (.raised "invalid_grant") ∧
       refreshAccessTokenFailure ⟨false, 400, some ⟨some "invalid_grant", ed⟩⟩
          = some (.raised "invalid_grant")) ∧
     (∀ eo2 ed : Option String, pyTruthyStr eo2 = false → pyTruthyStr ed = false →
       exchangeCodeFailure ⟨false, 400, some ⟨eo2, ed⟩⟩
          = some (.raised "Token exchange failed") ∧
       refreshAccessTokenFailure ⟨false, 400, some ⟨eo2, ed⟩⟩
          = some (.raised "Token refresh failed")) ∧
     (exchangeCodeFailure ⟨false, 400, none⟩ = some .jsonDecodeError ∧
      refreshAccessTokenFailure ⟨false, 400, none⟩ = some .jsonDecodeError) ∧
     getUserInfoFailure ⟨false, 400, some ⟨some "invalid_grant", some "Code expired"⟩⟩
        = some (.raised "Failed to fetch user info") ∧
     introspectTokenFailure ⟨false, 400, some ⟨some "invalid_grant", some "Code expired"⟩⟩
        = some (.raised "Token introspection failed") ∧
     djangoRaiseForStatus ⟨false, 400, some ⟨some "invalid_grant", some "Code expired"⟩⟩
        = some (.httpStatusError 400) ∧
     (∀ resp : HttpResponse, resp.ok = true →
       exchangeCodeFailure resp = none ∧ refreshAccessTokenFailure resp = none ∧
       getUserInfoFailure resp = none ∧ introspectTokenFailure resp = none ∧
       djangoRaiseForStatus resp = none)) :=
  ⟨⟨by decide, by decide⟩,
    C7_error_translation 400 (some ⟨some "invalid_grant", some "Code expired"⟩)
      (some "invalid_grant") "Code expired" "invalid_grant" (by decide) (by decide)⟩

/-- C9 counterexample (Django handler): after a callback whose token exchange
fails, the stored state and verifier remain in the session, and the very same
state then validates a second callback, which reaches a token exchange. -/
theorem C9_counterexample :
    (callback_view (some "good") (some "c") exSession 1000 "/home"
        .failure).session.oauth_state = some "good" ∧
    (callback_view (some "good") (some "c") exSession 1000 "/home"
        .failure).session.code_verifier = some "v" ∧
    (callback_view (some "good") (some "c")
        ((callback_view (some "good") (some "c") exSession 1000 "/home"
          .failure).session)
        1000 "/home" (.success exTokens)).exchangeCalls = 1 :=
  ⟨by decide, by decide, by decide⟩

/-- C9 amended: the Flask handler pops state and verifier before the token
exchange, so after any callback that passes state validation both are removed
from the session regardless of the exchange outcome, and the same state
cannot validate a second callback; the Django handler deletes them only after
a successful exchange — after a failed exchange the session is unchanged
(state and verifier retained) and the same state validates a second callback. -/
theorem C9_state_single_use
    (q : CallbackQuery) (s : SessionData) (now : Int)
    (ex : ExchangeOutcome) (ui : UserInfoOutcome)
    (hE : pyTruthyStr q.error = false) (hC : pyTruthyStr q.code = true)
    (hS : pyTruthyStr q.state = true) (hM : q.state = s.oauth_state)
    (qs qc : Option String) (s2 : SessionData) (now2 : Int) (url2 : String)
    (t : TokenResponse) (st2 : String)
    (hM2 : qs = s2.oauth_state) (hC2 : pyTruthyStr qc = true)
    (hV2 : pyTruthyStr s2.code_verifier = true)
    (hSt2 : s2.oauth_state = some st2) :
    ((auth_callback q s now ex ui).session.oauth_state = none ∧
     (auth_callback q s now ex ui).session.code_verifier = none) ∧
    (auth_callback q ((auth_callback q s now ex ui).session) now ex
        ui).exchangeCalls = 0 ∧
    ((callback_view qs qc s2 now2 url2 (.success t)).session.oauth_state = none ∧
     (callback_view qs qc s2 now2 url2 (.success t)).session.code_verifier = none) ∧
    ((callback_view qs qc s2 now2 url2 .failure).session = s2 ∧
     (callback_view qs qc ((callback_view qs qc s2 now2 url2 .failure).session)
        now2 url2 (.success t)).exchangeCalls = 1) := by
  have hS' : pyTruthyStr s.oauth_state = true := by rw [← hM]; exact hS
  have hpop : (auth_callback q s now ex ui).session.oauth_state = none ∧
      (auth_callback q s now ex ui).session.code_verifier = none := by
    unfold auth_callback
    simp only [hE, hC, hS, hS', hM]
    cases ex with
    | failure => simp
    | success tokens =>
      cases htt : tokens.token_type with
      | none => simp [htt]
      | some tt =>
        cases hsc : tokens.scope with
        | none => simp [htt, hsc]
        | some sc => cases ui <;> simp [htt, hsc]
  have hsecond :
      (auth_callback q ((auth_callback q s now ex ui).session) now ex
        ui).exchangeCalls = 0 := by
    have hne : q.state ≠ ((auth_callback q s now ex ui).session).oauth_state := by
      rw [hpop.1]
      cases hq : q.state with
      | none => rw [hq] at hS; simp [pyTruthyStr] at hS
      | some v => simp
    exact (flask_mismatch_helper _ _ _ _ _ hne).2
  have hdj_succ :
      (callback_view qs qc s2 now2 url2 (.success t)).session.oauth_state = none ∧
      (callback_view qs qc s2 now2 url2 (.success t)).session.code_verifier = none ∧
      (callback_view qs qc s2 now2 url2 (.success t)).exchangeCalls = 1 := by
    unfold callback_view
    simp [hM2, hC2, hV2, hSt2]
  have hdj_fail : (callback_view qs qc s2 now2 url2 .failure).session = s2 := by
    unfold callback_view
    simp [hM2, hC2, hV2]
  refine ⟨hpop, hsecond, ⟨hdj_succ.1, hdj_succ.2.1⟩, hdj_fail, ?_⟩
  rw [hdj_fail]
  exact hdj_succ.2.2

/-- C9 witness: concrete matching callbacks for both handlers. -/
theorem C9_witness :
    (pyTruthyStr exQueryGood.error = false ∧ pyTruthyStr exQueryGood.code = true ∧
     pyTruthyStr exQueryGood.state = true ∧
     exQueryGood.state = exSession.oauth_state ∧
     (some "good" : Option String) = exSession.oauth_state ∧
     pyTruthyStr (some "c") = true ∧ pyTruthyStr exSession.code_verifier = true ∧
     exSession.oauth_state = some "good") ∧
    (((auth_callback exQueryGood exSession 1000 .failure .failure).session.oauth_state = none ∧
      (auth_callback exQueryGood exSession 1000 .failure .failure).session.code_verifier = none) ∧
     (auth_callback exQueryGood
        ((auth_callback exQueryGood exSession 1000 .failure .failure).session)
        1000 .failure .failure).exchangeCalls = 0 ∧
     ((callback_view (some "good") (some "c") exSession 1000 "/home"
          (.success exTokens)).session.oauth_state = none ∧
      (callback_view (some "good") (some "c") exSession 1000 "/home"
          (.success exTokens)).session.code_verifier = none) ∧
     ((callback_view (some "good") (some "c") exSession 1000 "/home"
          .failure).session = exSession ∧
      (callback_view (some "good") (some "c")
          ((callback_view (some "good") (some "c") exSession 1000 "/home"
            .failure).session)
          1000 "/home" (.success exTokens)).exchangeCalls = 1)) :=
  ⟨⟨by decide, by decide, by decide, by decide, by decide, by decide, by decide,
     by decide⟩,
    C9_state_single_use exQueryGood exSession 1000 .failure .failure
      (by decide) (by decide) (by decide) (by decide)
      (some "good") (some "c") exSession 1000 "/home" exTokens "good"
      (by decide) (by decide) (by decide) (by decide)⟩

/-- C10: in the Flask callback, `access_token`, `refresh_token` and
`expires_at` are written to the session before `token_type` and `scope` are
read and before user info is fetched; if the token response lacks
`token_type` or `scope`, or the user-info fetch fails, the handler redirects
to the error page while the session retains the already-stored tokens,
leaving a partially authenticated session. -/
theorem C10_partial_session_on_late_failure
    (q : CallbackQuery) (s : SessionData) (now : Int) (t : TokenResponse)
    (ui : UserInfoOutcome)
    (hE : pyTruthyStr q.error = false) (hC : pyTruthyStr q.code = true)
    (hS : pyTruthyStr q.state = true) (hM : q.state = s.oauth_state) :
    (t.token_type = none →
      (auth_callback q s now (.success t) ui).page
          = .errorRedirect "Authentication failed. Please try again." ∧
      (auth_callback q s now (.success t) ui).session.access_token
          = some t.access_token ∧
      (auth_callback q s now (.success t) ui).session.refresh_token
          = t.refresh_token ∧
      (auth_callback q s now (.success t) ui).session.expires_at
          = some (now + t.expires_in)) ∧
    (∀ tt, t.token_type = some tt → t.scope = none →
      (auth_callback q s now (.success t) ui).page
          = .errorRedirect "Authentication failed. Please try again." ∧
      (auth_callback q s now (.success t) ui).session.access_token
          = some t.access_token ∧
      (auth_callback q s now (.success t) ui).session.refresh_token
          = t.refresh_token ∧
      (auth_callback q s now (.success t) ui).session.expires_at
          = some (now + t.expires_in)) ∧
    (∀ tt sc, t.token_type = some tt → t.scope = some sc → ui = .failure →
      (auth_callback q s now (.success t) ui).page
          = .errorRedirect "Authentication failed. Please try again." ∧
      (auth_callback q s now (.success t) ui).session.access_token
          = some t.access_token ∧
      (auth_callback q s now (.success t) ui).session.refresh_token
          = t.refresh_token ∧
      (auth_callback q s now (.success t) ui).session.expires_at
          = some (now + t.expires_in)) := by
  have hS' : pyTruthyStr s.oauth_state = true := by rw [← hM]; exact hS
  refine ⟨?_, ?_, ?_⟩
  · intro htt
    simp [auth_callback, hE, hC, hS, hS', hM, htt]
  · intro tt htt hsc
    simp [auth_callback, hE, hC, hS, hS', hM, htt, hsc]
  · intro tt sc htt hsc hui
    simp [auth_callback, hE, hC, hS, hS', hM, htt, hsc, hui]

/-- C10 witness: token response missing `token_type`, user-info failing. -/
theorem C10_witness :
    (pyTruthyStr exQueryGood.error = false ∧ pyTruthyStr exQueryGood.code = true ∧
     pyTruthyStr exQueryGood.state = true ∧
     exQueryGood.state = exSession.oauth_state ∧
     (TokenResponse.mk "AT" (some "RT") 3600 none none).token_type = none) ∧
    ((auth_callback exQueryGood exSession 1000
        (.success (TokenResponse.mk "AT" (some "RT") 3600 none none)) .failure).page
        = .errorRedirect "Authentication failed. Please try again." ∧
     (auth_callback exQueryGood exSession 1000
        (.success (TokenResponse.mk "AT" (some "RT") 3600 none none)) .failure).session.access_token
        = some "AT" ∧
     (auth_callback exQueryGood exSession 1000
        (.success (TokenResponse.mk "AT" (some "RT") 3600 none none)) .failure).session.refresh_token
        = some "RT" ∧
     (auth_callback exQueryGood exSession 1000
        (.success (TokenResponse.mk "AT" (some "RT") 3600 none none)) .failure).session.expires_at
        = some (1000 + 3600)) :=
  ⟨⟨by decide, by decide, by decide, by decide, by decide⟩,
    (C10_partial_session_on_late_failure exQueryGood exSession 1000
      (TokenResponse.mk "AT" (some "RT") 3600 none none) .failure
      (by decide) (by decide) (by decide) (by decide)).1 (by decide)⟩
